import Mathlib

/-!
Shallow embedding of the TkZero repository (src/TkZero/Keybind.py and
src/TkZero/Listbox.py) together with proofs about the claims of its
specification.

Python strings are modelled as `List Char`; Python exceptions as the
`PyErr` inductive; fallible code returns `Except PyErr _`.  The widget
argument that the Keybind functions receive is modelled as a `TkWidget`
carrying the windowing-system identifier (what `Platform.on_aqua`
inspects) plus an unrelated extra field, so that independence from any
other widget state is expressible.
-/

/-- Modelled from the spec: the module TkZero.Platform is not under src/;
per the spec the only thing the Keybind functions use it for is deciding
"whether the host platform is Apple's desktop environment (Aqua)".  A
widget is modelled as its windowing-system identifier plus an arbitrary
further state component. -/
structure TkWidget where
  windowingsystem : List Char
  otherState : Nat
deriving DecidableEq, Repr

/-- Modelled from the spec: Platform.on_aqua answers whether the host
platform is Aqua. -/
def on_aqua (w : TkWidget) : Bool :=
  w.windowingsystem == "aqua".toList

/-- Python exceptions raised by the embedded code. -/
inductive PyErr where
  | typeError (msg : List Char)
  | valueError (msg : List Char)
  | indexError (msg : List Char)
deriving DecidableEq, Repr

instance {ε α : Type} [DecidableEq ε] [DecidableEq α] : DecidableEq (Except ε α) := by
  intro x y
  cases x <;> cases y
  case error.error e f =>
    exact if h : e = f then .isTrue (by rw [h]) else .isFalse (fun hh => h (by injection hh))
  case error.ok e a => exact .isFalse (fun hh => Except.noConfusion hh)
  case ok.error a e => exact .isFalse (fun hh => Except.noConfusion hh)
  case ok.ok a b =>
    exact if h : a = b then .isTrue (by rw [h]) else .isFalse (fun hh => h (by injection hh))

/-- Python `needle in haystack` helper: is `w` a prefix of `l`? -/
def isPrefixList : List Char → List Char → Bool
  | [], _ => true
  | _ :: _, [] => false
  | a :: as, b :: bs => a == b && isPrefixList as bs

/-- Python substring test `w in l` on strings. -/
def containsSeq (w : List Char) : List Char → Bool
  | [] => isPrefixList w []
  | l@(_ :: rest) => isPrefixList w l || containsSeq w rest

/-- The proposition that `w` occurs contiguously inside `l`. -/
def occursIn (w l : List Char) : Prop :=
  ∃ s t, l = s ++ w ++ t

/-- Python `str[0]`: first character or IndexError. -/
def strGet0 (s : List Char) : Except PyErr Char :=
  match s with
  | [] => .error (.indexError "string index out of range".toList)
  | c :: _ => .ok c

/-- src/TkZero/Keybind.py lines 62-79: the string-building part of
generate_event_sequence.  The isinstance checks of lines 38-61 always
pass on the typed arguments this embedding receives (note
isinstance of any str passes, including the empty string). -/
def generate_event_sequence (w : TkWidget)
    (ctrl_cmd ctrl_ctrl shift_shift alt_option : Bool)
    (letter : List Char) : Except PyErr (List Char) :=
  let s0 := "<".toList
  let s1 :=
    if on_aqua w then
      let a := if ctrl_cmd then s0 ++ "Command-".toList else s0
      if alt_option then a ++ "Option-".toList else a
    else
      let a := if ctrl_cmd then s0 ++ "Control-".toList else s0
      if alt_option then a ++ "Alt-".toList else a
  let s2 :=
    if ctrl_ctrl && !containsSeq "Control-".toList s1 then
      s1 ++ "Control-".toList
    else s1
  let s3 := if shift_shift then s2 ++ "Shift-".toList else s2
  match strGet0 letter with
  | .error e => .error e
  | .ok ch =>
      let s4 := s3 ++ [if shift_shift then ch.toUpper else ch.toLower]
      .ok (s4 ++ ">".toList)

/-- src/TkZero/Keybind.py lines 131-148: the string-building part of
generate_accelerator_sequence (type checks of lines 107-130 always pass
on typed arguments). -/
def generate_accelerator_sequence (w : TkWidget)
    (ctrl_cmd ctrl_ctrl shift_shift alt_option : Bool)
    (letter : List Char) : Except PyErr (List Char) :=
  let s0 : List Char := []
  let s1 :=
    if ctrl_cmd then
      s0 ++ (if on_aqua w then "Command-".toList else "Control-".toList)
    else s0
  if ctrl_ctrl && containsSeq "Control-".toList s1 then
    .error (.valueError "ctrl_cmd and ctrl_ctrl is True and we are not on Aqua!".toList)
  else
    let s2 := if ctrl_ctrl then s1 ++ "Control-".toList else s1
    let s3 := if shift_shift then s2 ++ "Shift-".toList else s2
    let s4 :=
      if alt_option then
        s3 ++ (if on_aqua w then "Option-".toList else "Alt-".toList)
      else s3
    match strGet0 letter with
    | .error e => .error e
    | .ok ch =>
        let s5 := s4 ++ [ch.toUpper]
        .ok (if on_aqua w then s5
             else s5.map (fun c => if c == '-' then '+' else c))

/-- Example widgets used for concrete evaluations. -/
def aquaWidget : TkWidget := ⟨"aqua".toList, 0⟩

/-- A widget on the x11 windowing system. -/
def x11Widget : TkWidget := ⟨"x11".toList, 0⟩

/-- The modifier segment that generate_event_sequence builds between the
opening angle bracket and the letter, as a function of the platform and
the four flags.  The condition on the explicit-Control block reflects
exactly when the string built so far already holds the text Control- ,
namely when ctrl_cmd was mapped to Control- on a non-Aqua platform. -/
def evtMods (aqua ctrl_cmd ctrl_ctrl shift_shift alt_option : Bool) : List Char :=
  (if aqua then
     (if ctrl_cmd then "Command-".toList else [])
       ++ (if alt_option then "Option-".toList else [])
   else
     (if ctrl_cmd then "Control-".toList else [])
       ++ (if alt_option then "Alt-".toList else []))
  ++ (if ctrl_ctrl && !(ctrl_cmd && !aqua) then "Control-".toList else [])
  ++ (if shift_shift then "Shift-".toList else [])

/-- The modifier segment built by generate_accelerator_sequence before
the dash-to-plus substitution, in the cases where no ValueError fires. -/
def accMods (aqua ctrl_cmd ctrl_ctrl shift_shift alt_option : Bool) : List Char :=
  (if ctrl_cmd then (if aqua then "Command-".toList else "Control-".toList) else [])
  ++ (if ctrl_ctrl then "Control-".toList else [])
  ++ (if shift_shift then "Shift-".toList else [])
  ++ (if alt_option then (if aqua then "Option-".toList else "Alt-".toList) else [])

/-- The dash-to-plus character substitution that models Python's
sequence.replace applied with a one-character pattern. -/
def dashToPlus (c : Char) : Char := if c == '-' then '+' else c

lemma occursIn_refl (w : List Char) : occursIn w w := ⟨[], [], by simp⟩

lemma occursIn_append_left {w P : List Char} (Q : List Char) (h : occursIn w P) :
    occursIn w (P ++ Q) := by
  obtain ⟨s, t, rfl⟩ := h
  exact ⟨s, t ++ Q, by simp⟩

lemma occursIn_append_right (P : List Char) {w Q : List Char} (h : occursIn w Q) :
    occursIn w (P ++ Q) := by
  obtain ⟨s, t, rfl⟩ := h
  exact ⟨P ++ s, t, by simp⟩

lemma occursIn_trans {u w l : List Char} (h₁ : occursIn u w) (h₂ : occursIn w l) :
    occursIn u l := by
  obtain ⟨s₁, t₁, rfl⟩ := h₁
  obtain ⟨s₂, t₂, rfl⟩ := h₂
  exact ⟨s₂ ++ s₁, t₁ ++ t₂, by simp⟩

lemma occursIn_map (f : Char → Char) {w l : List Char} (h : occursIn w l) :
    occursIn (w.map f) (l.map f) := by
  obtain ⟨s, t, rfl⟩ := h
  exact ⟨s.map f, t.map f, by simp⟩

lemma isPrefixList_iff (w : List Char) : ∀ l, isPrefixList w l = true ↔ ∃ t, l = w ++ t := by
  induction w with
  | nil => intro l; simp [isPrefixList]
  | cons a as ih =>
      intro l
      cases l with
      | nil => simp [isPrefixList]
      | cons b bs =>
          simp only [isPrefixList, Bool.and_eq_true, beq_iff_eq, ih, List.cons_append]
          constructor
          · rintro ⟨rfl, t, rfl⟩
            exact ⟨t, rfl⟩
          · rintro ⟨t, h⟩
            injection h with h1 h2
            exact ⟨h1.symm, t, h2⟩

lemma containsSeq_iff (w : List Char) : ∀ l, containsSeq w l = true ↔ occursIn w l := by
  intro l
  induction l with
  | nil =>
      rw [show containsSeq w [] = isPrefixList w [] from rfl, isPrefixList_iff]
      constructor
      · rintro ⟨t, ht⟩
        exact ⟨[], t, by rw [List.nil_append]; exact ht⟩
      · rintro ⟨s, t, hst⟩
        obtain ⟨h2, h3⟩ := List.append_eq_nil.mp hst.symm
        obtain ⟨h4, h5⟩ := List.append_eq_nil.mp h2
        exact ⟨t, by rw [h5, List.nil_append, hst, h4, h5, List.nil_append, List.nil_append]⟩
  | cons b bs ih =>
      rw [show containsSeq w (b :: bs)
            = (isPrefixList w (b :: bs) || containsSeq w bs) from rfl]
      simp only [Bool.or_eq_true, isPrefixList_iff, ih]
      constructor
      · rintro (⟨t, ht⟩ | ⟨s, t, ht⟩)
        · exact ⟨[], t, by rw [List.nil_append]; exact ht⟩
        · exact ⟨b :: s, t, by rw [ht]; rfl⟩
      · rintro ⟨s, t, ht⟩
        cases s with
        | nil => exact Or.inl ⟨t, by rw [ht, List.nil_append]⟩
        | cons s0 ss =>
            simp only [List.cons_append] at ht
            injection ht with h1 h2
            exact Or.inr ⟨ss, t, h2⟩

instance (w l : List Char) : Decidable (occursIn w l) :=
  decidable_of_iff _ (containsSeq_iff w l)

lemma noDashMap (l : List Char) : '-' ∉ l.map dashToPlus := by
  intro hmem
  rcases List.mem_map.mp hmem with ⟨a, _, ha⟩
  by_cases h : a = '-'
  · subst h
    rw [(by decide : dashToPlus '-' = '+')] at ha
    exact absurd ha (by decide)
  · rw [show dashToPlus a = a from by simp [dashToPlus, h]] at ha
    exact h ha

lemma evtSeq_eq (w : TkWidget) (cc ctl sh alt : Bool) (c : Char) (rest : List Char) :
    generate_event_sequence w cc ctl sh alt (c :: rest)
      = .ok ("<".toList ++ evtMods (on_aqua w) cc ctl sh alt
          ++ [if sh then c.toUpper else c.toLower] ++ ">".toList) := by
  cases haq : on_aqua w <;> cases cc <;> cases ctl <;> cases sh <;> cases alt <;>
    simp only [generate_event_sequence, evtMods, haq] <;> rfl

lemma evtSeq_nil (w : TkWidget) (cc ctl sh alt : Bool) :
    generate_event_sequence w cc ctl sh alt []
      = .error (.indexError "string index out of range".toList) := rfl

lemma accSeq_err (w : TkWidget) (sh alt : Bool) (letter : List Char)
    (haq : on_aqua w = false) :
    generate_accelerator_sequence w true true sh alt letter
      = .error (.valueError "ctrl_cmd and ctrl_ctrl is True and we are not on Aqua!".toList) := by
  simp only [generate_accelerator_sequence, haq]
  rfl

lemma accSeq_ok_aqua (w : TkWidget) (cc ctl sh alt : Bool) (c : Char) (rest : List Char)
    (haq : on_aqua w = true) :
    generate_accelerator_sequence w cc ctl sh alt (c :: rest)
      = .ok (accMods true cc ctl sh alt ++ [c.toUpper]) := by
  cases cc <;> cases ctl <;> cases sh <;> cases alt <;>
    simp only [generate_accelerator_sequence, accMods, haq] <;> rfl

lemma accSeq_ok_nonaqua (w : TkWidget) (cc ctl sh alt : Bool) (c : Char) (rest : List Char)
    (haq : on_aqua w = false) (h : (cc && ctl) = false) :
    generate_accelerator_sequence w cc ctl sh alt (c :: rest)
      = .ok ((accMods false cc ctl sh alt ++ [c.toUpper]).map dashToPlus) := by
  cases cc <;> cases ctl <;> cases sh <;> cases alt <;>
    first
      | exact absurd h (by decide)
      | (simp only [generate_accelerator_sequence, accMods, dashToPlus, haq] ; rfl)

lemma accSeq_nil (w : TkWidget) (cc ctl sh alt : Bool)
    (h : (cc && ctl && !(on_aqua w)) = false) :
    generate_accelerator_sequence w cc ctl sh alt []
      = .error (.indexError "string index out of range".toList) := by
  cases haq : on_aqua w <;> cases cc <;> cases ctl <;>
    simp only [haq] at h <;> cases sh <;> cases alt <;>
    first
      | exact absurd h (by decide)
      | (simp only [generate_accelerator_sequence, haq] ; rfl)

/-- Python runtime values, as far as the Listbox code needs to
distinguish them.  Note that Python's bool is a subclass of int, which
isinstance respects. -/
inductive PyVal where
  | pynone
  | pybool (b : Bool)
  | pyint (n : Int)
  | pystr (s : List Char)
  | pylist (xs : List PyVal)
  | pytuple (xs : List PyVal)
  | pycallable (id : Nat)
  | pywidget (w : TkWidget)

def isinstance_widget : PyVal → Bool
  | .pywidget _ => true
  | _ => false

def isinstance_list : PyVal → Bool
  | .pylist _ => true
  | _ => false

def isinstance_str : PyVal → Bool
  | .pystr _ => true
  | _ => false

/-- isinstance of int is also true on bools in Python. -/
def isinstance_int : PyVal → Bool
  | .pyint _ => true
  | .pybool _ => true
  | _ => false

def isinstance_bool : PyVal → Bool
  | .pybool _ => true
  | _ => false

def isinstance_tuple : PyVal → Bool
  | .pytuple _ => true
  | _ => false

def isNone : PyVal → Bool
  | .pynone => true
  | _ => false

/-- Python repr of the type of a value, as interpolated into the error
messages (quote characters around the class name are left out of the
model). -/
def pyTypeRepr : PyVal → List Char
  | .pynone => "<class NoneType>".toList
  | .pybool _ => "<class bool>".toList
  | .pyint _ => "<class int>".toList
  | .pystr _ => "<class str>".toList
  | .pylist _ => "<class list>".toList
  | .pytuple _ => "<class tuple>".toList
  | .pycallable _ => "<class function>".toList
  | .pywidget _ => "<class tkinter.Widget>".toList

/-- Decimal rendering of an integer, as Python prints it. -/
def intToDecimal (n : Int) : List Char :=
  if n < 0 then '-' :: Nat.toDigits 10 (-n).toNat else Nat.toDigits 10 n.toNat

mutual
/-- Python repr of a value (string quoting is left out of the model). -/
def pyRepr : PyVal → List Char
  | .pynone => "None".toList
  | .pybool b => if b then "True".toList else "False".toList
  | .pyint n => intToDecimal n
  | .pystr s => s
  | .pylist xs => '[' :: pyReprList xs ++ [']']
  | .pytuple [x] => '(' :: pyRepr x ++ ",)".toList
  | .pytuple xs => '(' :: pyReprList xs ++ [')']
  | .pycallable _ => "<function>".toList
  | .pywidget _ => "<tkinter widget>".toList

/-- Comma-separated repr of the elements of a list value. -/
def pyReprList : List PyVal → List Char
  | [] => []
  | [x] => pyRepr x
  | x :: xs => pyRepr x ++ ", ".toList ++ pyReprList xs
end

/-- Python str() conversion: a str is itself, anything else renders via
repr (true in Python for None, bools, ints, lists and tuples). -/
def pyStr : PyVal → List Char
  | .pystr s => s
  | v => pyRepr v

/-- The state of a wrapped Listbox: the Python-side _values list, the
StringVar mirror, the toolkit's selection, and the enabled flag. -/
structure ListboxState where
  values : List (List Char)
  tkListvar : List (List Char)
  selection : List Nat
  enabled : Bool
deriving DecidableEq, Repr

/-- Ordered duplicate-free insertion, used to model the toolkit's
selection as the sorted index tuple that curselection reports. -/
def tkSelectionInsert (i : Nat) : List Nat → List Nat
  | [] => [i]
  | j :: js =>
      if i < j then i :: j :: js
      else if i = j then j :: js
      else j :: tkSelectionInsert i js

/-- Modelled from the spec: tkinter itself is not under src/.  The
toolkit's selection_set marks a valid index as selected (out-of-range
indices select nothing); the selection is "indices into that list,
represented as an ordered tuple". -/
def tkSelectionSet (st : ListboxState) (i : Int) : ListboxState :=
  if 0 ≤ i ∧ i < (st.values.length : Int) then
    { st with selection := tkSelectionInsert i.toNat st.selection }
  else st

/-- src/TkZero/Listbox.py lines 44-82: the validation and state set-up
of Listbox.__init__.  The two deviations of the source from its own
messages are kept: the select_mode error message interpolates the type
of values, and the width check is guarded by height being non-None. -/
def Listbox_init (parent values select_mode height width
    on_select on_double_click : PyVal) : Except PyErr ListboxState :=
  if !(isinstance_widget parent) then
    .error (.typeError ("parent is not a Union[tk.Widget, Union[tk.Tk, tk.Toplevel]]! (type passed in: ".toList
      ++ pyTypeRepr parent ++ ")".toList))
  else if !(isinstance_list values) && !(isNone values) then
    .error (.typeError ("values is not a list! (type passed in: ".toList
      ++ pyTypeRepr values ++ ")".toList))
  else if !(isinstance_str select_mode) then
    .error (.typeError ("select_mode is not a str! (type passed in: ".toList
      ++ pyTypeRepr values ++ ")".toList))
  else if !(isinstance_int height) && !(isNone height) then
    .error (.typeError ("height is not a int! (type passed in: ".toList
      ++ pyTypeRepr height ++ ")".toList))
  else if !(isinstance_int width) && !(isNone height) then
    .error (.typeError ("width is not a int! (type passed in: ".toList
      ++ pyTypeRepr width ++ ")".toList))
  else
    let vals := match values with
      | .pylist xs => xs.map pyStr
      | _ => []
    .ok { values := vals, tkListvar := vals, selection := [], enabled := true }

/-- Listbox.selected getter: curselection(), the ordered selected
indices. -/
def selected_get (st : ListboxState) : List Nat := st.selection

/-- The loop of the selected setter: selection_set for each entry of
the tuple.  A non-integer entry is a toolkit-level error. -/
def applySelection : ListboxState → List PyVal → Except PyErr ListboxState
  | st, [] => .ok st
  | st, v :: vs =>
      match v with
      | .pyint i => applySelection (tkSelectionSet st i) vs
      | .pybool b => applySelection (tkSelectionSet st (if b then 1 else 0)) vs
      | _ => .error (.typeError "bad listbox index".toList)

/-- src/TkZero/Listbox.py lines 93-109: the selected setter.  The
source's message has a doubled space before the parenthesis. -/
def selected_set (st : ListboxState) (new_selection : PyVal) :
    Except PyErr ListboxState :=
  match new_selection with
  | .pytuple xs => applySelection { st with selection := [] } xs
  | v =>
      .error (.typeError ("new_selection is not a tuple!  (type passed in: ".toList
        ++ pyTypeRepr v ++ ")".toList))

/-- Listbox.values getter: returns self._values. -/
def values_get (st : ListboxState) : List (List Char) := st.values

/-- src/TkZero/Listbox.py lines 120-134: the values setter. -/
def values_set (st : ListboxState) (new_values : PyVal) :
    Except PyErr ListboxState :=
  match new_values with
  | .pylist xs =>
      let vals := xs.map pyStr
      .ok { st with values := vals, tkListvar := vals }
  | v =>
      .error (.typeError ("new_values is not a list! (type passed in: ".toList
        ++ pyTypeRepr v ++ ")".toList))

/-- Listbox.enabled getter. -/
def enabled_get (st : ListboxState) : Bool := st.enabled

/-- src/TkZero/Listbox.py lines 166-182: the enabled setter (the
config call is delegated to the toolkit). -/
def enabled_set (st : ListboxState) (new_state : PyVal) :
    Except PyErr ListboxState :=
  match new_state with
  | .pybool b => .ok { st with enabled := b }
  | v =>
      .error (.typeError ("new_state is not a bool! (type passed in: ".toList
        ++ pyTypeRepr v ++ ")".toList))

/-- src/TkZero/Listbox.py lines 136-154: scroll_to.  On success the
index handed to the toolkit's see call is returned alongside the
state.  The source's IndexError message lacks a closing parenthesis;
the comparison against the length is kept exactly as written. -/
def scroll_to (st : ListboxState) (index : PyVal) :
    Except PyErr (ListboxState × Int) :=
  if !(isinstance_int index) then
    .error (.typeError ("index is not a int! (type passed in: ".toList
      ++ pyTypeRepr index ++ ")".toList))
  else
    let i : Int := match index with
      | .pyint n => n
      | .pybool b => if b then 1 else 0
      | _ => 0
    if i < (st.values.length : Int) then
      .error (.indexError ("index is out of range! (index passed in: ".toList
        ++ intToDecimal i ++ " length of items: ".toList
        ++ intToDecimal (st.values.length : Int)))
    else
      .ok (st, i)

lemma mem_tkSelectionInsert (n i : Nat) (l : List Nat) :
    n ∈ tkSelectionInsert i l ↔ n = i ∨ n ∈ l := by
  induction l with
  | nil => simp [tkSelectionInsert]
  | cons j js ih =>
      by_cases h1 : i < j
      · simp only [tkSelectionInsert, if_pos h1, List.mem_cons]
        try tauto
      · by_cases h2 : i = j
        · subst h2
          have heq : tkSelectionInsert i (i :: js) = i :: js := by
            unfold tkSelectionInsert
            rw [if_neg h1, if_pos rfl]
          rw [heq]
          simp only [List.mem_cons]
          tauto
        · simp only [tkSelectionInsert, if_neg h1, if_neg h2, List.mem_cons, ih]
          tauto

lemma tkSelectionSet_values (st : ListboxState) (i : Int) :
    (tkSelectionSet st i).values = st.values := by
  unfold tkSelectionSet
  split <;> rfl

lemma mem_tkSelectionSet (st : ListboxState) (i : Int) (n : Nat)
    (h : 0 ≤ i ∧ i < (st.values.length : Int)) :
    n ∈ (tkSelectionSet st i).selection ↔ n = i.toNat ∨ n ∈ st.selection := by
  unfold tkSelectionSet
  rw [if_pos h]
  exact mem_tkSelectionInsert n i.toNat st.selection

lemma applySelection_map_pyint (idxs : List Int) (st : ListboxState) :
    applySelection st (idxs.map PyVal.pyint) = .ok (idxs.foldl tkSelectionSet st) := by
  induction idxs generalizing st with
  | nil => rfl
  | cons i is ih => simp [applySelection, List.foldl_cons, ih]

lemma foldl_tkSelectionSet_values (idxs : List Int) (st : ListboxState) :
    (idxs.foldl tkSelectionSet st).values = st.values := by
  induction idxs generalizing st with
  | nil => rfl
  | cons i is ih => rw [List.foldl_cons, ih, tkSelectionSet_values]

lemma mem_foldl_tkSelectionSet (idxs : List Int) (st : ListboxState) (n : Nat)
    (hvalid : ∀ i ∈ idxs, 0 ≤ i ∧ i < (st.values.length : Int)) :
    n ∈ (idxs.foldl tkSelectionSet st).selection
      ↔ (n : Int) ∈ idxs ∨ n ∈ st.selection := by
  induction idxs generalizing st with
  | nil => simp
  | cons i is ih =>
      have hi := hvalid i (by simp)
      have hrest : ∀ j ∈ is, 0 ≤ j ∧ j < ((tkSelectionSet st i).values.length : Int) := by
        rw [tkSelectionSet_values]
        intro j hj
        exact hvalid j (by simp [hj])
      rw [List.foldl_cons, ih _ hrest, mem_tkSelectionSet st i n hi]
      have hni : ((n : Int) = i) ↔ (n = i.toNat) := by omega
      simp only [List.mem_cons, hni]
      tauto

lemma scroll_to_lt (st : ListboxState) (i : Int)
    (h : i < (st.values.length : Int)) :
    scroll_to st (.pyint i) = .error (.indexError
      ("index is out of range! (index passed in: ".toList
        ++ intToDecimal i ++ " length of items: ".toList
        ++ intToDecimal (st.values.length : Int))) := by
  simp [scroll_to, isinstance_int, h]

lemma scroll_to_ge (st : ListboxState) (i : Int)
    (h : ¬ i < (st.values.length : Int)) :
    scroll_to st (.pyint i) = .ok (st, i) := by
  simp [scroll_to, isinstance_int, h]

/-- A one-element listbox state used for concrete instantiations. -/
def sampleListbox : ListboxState :=
  { values := ["a".toList], tkListvar := ["a".toList], selection := [], enabled := true }

/-- Claim C3: with ctrl_cmd alone and letter s, a non-Aqua platform
yields the binding <Control-s> and the accelerator Control+S, while
Aqua yields <Command-s> and Command-S. -/
theorem claim_C3_platform_examples (w : TkWidget) :
    (on_aqua w = false →
      generate_event_sequence w true false false false "s".toList
          = .ok "<Control-s>".toList
      ∧ generate_accelerator_sequence w true false false false "s".toList
          = .ok "Control+S".toList)
  ∧ (on_aqua w = true →
      generate_event_sequence w true false false false "s".toList
          = .ok "<Command-s>".toList
      ∧ generate_accelerator_sequence w true false false false "s".toList
          = .ok "Command-S".toList) := by
  constructor <;> intro haq <;> constructor <;>
    simp only [generate_event_sequence, generate_accelerator_sequence, haq] <;> rfl

theorem claim_C3_witness :
    (generate_event_sequence x11Widget true false false false "s".toList
        = .ok "<Control-s>".toList
     ∧ generate_accelerator_sequence x11Widget true false false false "s".toList
        = .ok "Control+S".toList)
  ∧ (generate_event_sequence aquaWidget true false false false "s".toList
        = .ok "<Command-s>".toList
     ∧ generate_accelerator_sequence aquaWidget true false false false "s".toList
        = .ok "Command-S".toList) :=
  ⟨(claim_C3_platform_examples x11Widget).1 (by decide),
   (claim_C3_platform_examples aquaWidget).2 (by decide)⟩

/-- Claim C6: on any letter of length at least one,
generate_event_sequence depends only on the first character of the
letter, and the key token of the binding is that character uppercased
when shift is set and lowercased otherwise, right before the closing
angle bracket. -/
theorem claim_C6_letter_handling (w : TkWidget) (cc ctl sh alt : Bool)
    (c : Char) (rest : List Char) :
    generate_event_sequence w cc ctl sh alt (c :: rest)
      = generate_event_sequence w cc ctl sh alt [c]
  ∧ generate_event_sequence w cc ctl sh alt (c :: rest)
      = .ok ("<".toList ++ evtMods (on_aqua w) cc ctl sh alt
          ++ [if sh then c.toUpper else c.toLower] ++ ">".toList) :=
  ⟨(evtSeq_eq w cc ctl sh alt c rest).trans (evtSeq_eq w cc ctl sh alt c []).symm,
   evtSeq_eq w cc ctl sh alt c rest⟩

/-- Claim C8: the two generators are pure functions of the platform,
the four flags and the letter: two widgets agreeing on the windowing
system produce identical strings, whatever their other state. -/
theorem claim_C8_pure (w₁ w₂ : TkWidget) (cc ctl sh alt : Bool) (letter : List Char)
    (h : w₁.windowingsystem = w₂.windowingsystem) :
    generate_event_sequence w₁ cc ctl sh alt letter
      = generate_event_sequence w₂ cc ctl sh alt letter
  ∧ generate_accelerator_sequence w₁ cc ctl sh alt letter
      = generate_accelerator_sequence w₂ cc ctl sh alt letter := by
  have haq : on_aqua w₁ = on_aqua w₂ := by simp [on_aqua, h]
  constructor <;> simp only [generate_event_sequence, generate_accelerator_sequence, haq]

theorem claim_C8_witness :
    generate_event_sequence ⟨"x11".toList, 0⟩ true false true false "s".toList
      = generate_event_sequence ⟨"x11".toList, 7⟩ true false true false "s".toList :=
  (claim_C8_pure ⟨"x11".toList, 0⟩ ⟨"x11".toList, 7⟩ true false true false
    "s".toList rfl).1

/-- Claim C9: Listbox.scroll_to raises IndexError exactly on integer
indices below the length of the value list, and on any index at least
the length it returns normally, handing the index to the toolkit's see
call. -/
theorem claim_C9_scroll_to (st : ListboxState) (i : Int) :
    ((∃ msg, scroll_to st (.pyint i) = .error (.indexError msg))
        ↔ i < (st.values.length : Int))
  ∧ ((st.values.length : Int) ≤ i → scroll_to st (.pyint i) = .ok (st, i)) := by
  constructor
  · constructor
    · rintro ⟨msg, hmsg⟩
      by_contra hge
      rw [scroll_to_ge st i hge] at hmsg
      exact Except.noConfusion hmsg
    · intro hlt
      exact ⟨_, scroll_to_lt st i hlt⟩
  · intro hge
    exact scroll_to_ge st i (by omega)

theorem claim_C9_witness :
    (∃ msg, scroll_to sampleListbox (.pyint 0) = .error (.indexError msg))
  ∧ scroll_to sampleListbox (.pyint 5) = .ok (sampleListbox, 5) :=
  ⟨(claim_C9_scroll_to sampleListbox 0).1.mpr (by decide),
   (claim_C9_scroll_to sampleListbox 5).2 (by decide)⟩

/-- Claim C2 is contradicted by the code: below, width is a str and
height is None, yet the constructor raises nothing, because the source
guards the width check with height being non-None; the check's own
message (width is not a int!) shows the intent.  Additionally, an int
select_mode is reported with the type of the values argument instead
of its own type, against the messages' declared form. -/
theorem claim_C2_bug_eval :
    Listbox_init (.pywidget x11Widget) .pynone (.pystr "browse".toList)
        .pynone (.pystr "x".toList) .pynone .pynone
      = .ok { values := [], tkListvar := [], selection := [], enabled := true }
  ∧ Listbox_init (.pywidget x11Widget) (.pylist []) (.pyint 3)
        .pynone .pynone .pynone .pynone
      = .error (.typeError ("select_mode is not a str! (type passed in: <class list>)".toList)) := by
  constructor <;> rfl

/-- Claim C10 as stated is false: with ctrl_cmd and ctrl_ctrl both set
off Aqua, generate_accelerator_sequence raises ValueError before the
empty letter is ever indexed, not IndexError. -/
theorem claim_C10_counterexample :
    generate_accelerator_sequence x11Widget true true false false []
      = .error (.valueError "ctrl_cmd and ctrl_ctrl is True and we are not on Aqua!".toList) := by
  rfl

/-- Claim C10 amended: on the empty letter (which passes the str type
check) generate_event_sequence always raises IndexError from indexing
letter, and generate_accelerator_sequence does so unless ctrl_cmd and
ctrl_ctrl are combined off Aqua, where its ValueError fires first;
neither function returns a string or raises a TypeError. -/
theorem claim_C10_amended_thm (w : TkWidget) (cc ctl sh alt : Bool) :
    generate_event_sequence w cc ctl sh alt []
      = .error (.indexError "string index out of range".toList)
  ∧ ((cc && ctl && !(on_aqua w)) = false →
      generate_accelerator_sequence w cc ctl sh alt []
        = .error (.indexError "string index out of range".toList))
  ∧ ((cc && ctl && !(on_aqua w)) = true →
      generate_accelerator_sequence w cc ctl sh alt []
        = .error (.valueError "ctrl_cmd and ctrl_ctrl is True and we are not on Aqua!".toList)) := by
  refine ⟨evtSeq_nil w cc ctl sh alt, fun h => accSeq_nil w cc ctl sh alt h, fun h => ?_⟩
  simp only [Bool.and_eq_true, Bool.not_eq_true'] at h
  obtain ⟨⟨hcc, hctl⟩, haq⟩ := h
  subst hcc
  subst hctl
  exact accSeq_err w sh alt [] haq

theorem claim_C10_witness :
    generate_event_sequence x11Widget true false false false []
      = .error (.indexError "string index out of range".toList)
  ∧ generate_accelerator_sequence x11Widget true false false false []
      = .error (.indexError "string index out of range".toList) :=
  ⟨(claim_C10_amended_thm x11Widget true false false false).1,
   (claim_C10_amended_thm x11Widget true false false false).2.1 (by decide)⟩

/-- Claim C4: Listbox setters round-trip.  Assigning any list to the
values setter and reading the property back yields that list with each
element converted by str; assigning a tuple of valid indices to the
selected setter and reading the property back yields the same set of
indices, order-insensitively. -/
theorem claim_C4_roundtrip :
    (∀ (st st' : ListboxState) (xs : List PyVal),
       values_set st (.pylist xs) = .ok st' → values_get st' = xs.map pyStr)
  ∧ (∀ (st st' : ListboxState) (idxs : List Int),
       (∀ i ∈ idxs, 0 ≤ i ∧ i < (st.values.length : Int)) →
       selected_set st (.pytuple (idxs.map PyVal.pyint)) = .ok st' →
       ∀ n : Nat, n ∈ selected_get st' ↔ (n : Int) ∈ idxs) := by
  constructor
  · intro st st' xs h
    simp only [values_set] at h
    injection h with h
    subst h
    rfl
  · intro st st' idxs hvalid hset n
    rw [show selected_set st (.pytuple (idxs.map PyVal.pyint))
          = applySelection { st with selection := [] } (idxs.map PyVal.pyint) from rfl,
        applySelection_map_pyint] at hset
    injection hset with hset
    subst hset
    rw [show selected_get (idxs.foldl tkSelectionSet { st with selection := [] })
          = (idxs.foldl tkSelectionSet { st with selection := [] }).selection from rfl,
        mem_foldl_tkSelectionSet idxs { st with selection := [] } n
          (fun i hi => hvalid i hi)]
    simp

theorem claim_C4_witness :
    values_get (⟨["b".toList, "3".toList], ["b".toList, "3".toList], [], true⟩ : ListboxState)
        = [PyVal.pystr "b".toList, PyVal.pyint 3].map pyStr
  ∧ ((0 : Nat) ∈ selected_get (⟨["a".toList], ["a".toList], [0], true⟩ : ListboxState)
        ↔ ((0 : Nat) : Int) ∈ [(0 : Int)]) :=
  ⟨claim_C4_roundtrip.1 sampleListbox _ [PyVal.pystr "b".toList, PyVal.pyint 3] (by decide),
   claim_C4_roundtrip.2 sampleListbox _ [(0 : Int)] (by decide) (by decide) 0⟩

/-- Claim C5: on every non-raising input, ctrl_cmd contributes the
modifier name Command on Aqua and Control elsewhere, and alt_option
contributes Option on Aqua and Alt elsewhere, in the output of both
generators. -/
theorem claim_C5_modifier_names (w : TkWidget) (cc ctl sh alt : Bool)
    (letter out : List Char) :
    (on_aqua w = false → generate_event_sequence w cc ctl sh alt letter = .ok out →
        (cc = true → occursIn "Control".toList out)
      ∧ (alt = true → occursIn "Alt".toList out))
  ∧ (on_aqua w = true → generate_event_sequence w cc ctl sh alt letter = .ok out →
        (cc = true → occursIn "Command".toList out)
      ∧ (alt = true → occursIn "Option".toList out))
  ∧ (on_aqua w = false → generate_accelerator_sequence w cc ctl sh alt letter = .ok out →
        (cc = true → occursIn "Control".toList out)
      ∧ (alt = true → occursIn "Alt".toList out))
  ∧ (on_aqua w = true → generate_accelerator_sequence w cc ctl sh alt letter = .ok out →
        (cc = true → occursIn "Command".toList out)
      ∧ (alt = true → occursIn "Option".toList out)) := by
  refine ⟨?_, ?_, ?_, ?_⟩
  · intro haq hout
    cases letter with
    | nil =>
        rw [evtSeq_nil] at hout
        exact Except.noConfusion hout
    | cons c rest =>
        rw [evtSeq_eq, haq] at hout
        injection hout with hout
        subst hout
        constructor
        · intro hcc
          subst hcc
          apply occursIn_append_left
          apply occursIn_append_left
          apply occursIn_append_right
          cases ctl <;> cases sh <;> cases alt <;> decide
        · intro halt
          subst halt
          apply occursIn_append_left
          apply occursIn_append_left
          apply occursIn_append_right
          cases cc <;> cases ctl <;> cases sh <;> decide
  · intro haq hout
    cases letter with
    | nil =>
        rw [evtSeq_nil] at hout
        exact Except.noConfusion hout
    | cons c rest =>
        rw [evtSeq_eq, haq] at hout
        injection hout with hout
        subst hout
        constructor
        · intro hcc
          subst hcc
          apply occursIn_append_left
          apply occursIn_append_left
          apply occursIn_append_right
          cases ctl <;> cases sh <;> cases alt <;> decide
        · intro halt
          subst halt
          apply occursIn_append_left
          apply occursIn_append_left
          apply occursIn_append_right
          cases cc <;> cases ctl <;> cases sh <;> decide
  · intro haq hout
    by_cases hgood : (cc && ctl) = false
    · cases letter with
      | nil =>
          rw [accSeq_nil w cc ctl sh alt
            (by rw [haq, Bool.not_false, Bool.and_true]; exact hgood)] at hout
          exact Except.noConfusion hout
      | cons c rest =>
          rw [accSeq_ok_nonaqua w cc ctl sh alt c rest haq hgood] at hout
          injection hout with hout
          subst hout
          constructor
          · intro hcc
            subst hcc
            have h1 : occursIn "Control".toList (accMods false true ctl sh alt) := by
              cases ctl <;> cases sh <;> cases alt <;> decide
            have h2 := occursIn_map dashToPlus (occursIn_append_left [c.toUpper] h1)
            rw [(by decide : "Control".toList.map dashToPlus = "Control".toList)] at h2
            exact h2
          · intro halt
            subst halt
            have h1 : occursIn "Alt".toList (accMods false cc ctl sh true) := by
              cases cc <;> cases ctl <;> cases sh <;> decide
            have h2 := occursIn_map dashToPlus (occursIn_append_left [c.toUpper] h1)
            rw [(by decide : "Alt".toList.map dashToPlus = "Alt".toList)] at h2
            exact h2
    · have hb : (cc && ctl) = true := by
        revert hgood
        cases (cc && ctl) <;> simp
      simp only [Bool.and_eq_true] at hb
      obtain ⟨hcc, hctl⟩ := hb
      subst hcc
      subst hctl
      rw [accSeq_err w sh alt letter haq] at hout
      exact Except.noConfusion hout
  · intro haq hout
    cases letter with
    | nil =>
        rw [accSeq_nil w cc ctl sh alt (by rw [haq, Bool.not_true, Bool.and_false])] at hout
        exact Except.noConfusion hout
    | cons c rest =>
        rw [accSeq_ok_aqua w cc ctl sh alt c rest haq] at hout
        injection hout with hout
        subst hout
        constructor
        · intro hcc
          subst hcc
          apply occursIn_append_left
          cases ctl <;> cases sh <;> cases alt <;> decide
        · intro halt
          subst halt
          apply occursIn_append_left
          cases cc <;> cases ctl <;> cases sh <;> decide

theorem claim_C5_witness :
    occursIn "Command".toList "Command-S".toList
  ∧ occursIn "Control".toList "Control+S".toList :=
  ⟨((claim_C5_modifier_names aquaWidget true false false false "s".toList
      "Command-S".toList).2.2.2 (by decide) (by decide)).1 rfl,
   ((claim_C5_modifier_names x11Widget true false false false "s".toList
      "Control+S".toList).2.2.1 (by decide) (by decide)).1 rfl⟩

/-- Claim C7: on every non-raising input the accelerator uses a dash
after each modifier name on Aqua and a plus elsewhere, and off Aqua the
returned string holds no dash at all. -/
theorem claim_C7_separators (w : TkWidget) (cc ctl sh alt : Bool)
    (letter out : List Char) :
    (on_aqua w = false → generate_accelerator_sequence w cc ctl sh alt letter = .ok out →
        '-' ∉ out
      ∧ (cc = true → occursIn "Control+".toList out)
      ∧ (ctl = true → occursIn "Control+".toList out)
      ∧ (sh = true → occursIn "Shift+".toList out)
      ∧ (alt = true → occursIn "Alt+".toList out))
  ∧ (on_aqua w = true → generate_accelerator_sequence w cc ctl sh alt letter = .ok out →
        (cc = true → occursIn "Command-".toList out)
      ∧ (ctl = true → occursIn "Control-".toList out)
      ∧ (sh = true → occursIn "Shift-".toList out)
      ∧ (alt = true → occursIn "Option-".toList out)) := by
  constructor
  · intro haq hout
    by_cases hgood : (cc && ctl) = false
    · cases letter with
      | nil =>
          rw [accSeq_nil w cc ctl sh alt
            (by rw [haq, Bool.not_false, Bool.and_true]; exact hgood)] at hout
          exact Except.noConfusion hout
      | cons c rest =>
          rw [accSeq_ok_nonaqua w cc ctl sh alt c rest haq hgood] at hout
          injection hout with hout
          subst hout
          refine ⟨noDashMap _, ?_, ?_, ?_, ?_⟩
          · intro hcc
            subst hcc
            have h1 : occursIn "Control-".toList (accMods false true ctl sh alt) := by
              cases ctl <;> cases sh <;> cases alt <;> decide
            have h2 := occursIn_map dashToPlus (occursIn_append_left [c.toUpper] h1)
            rw [(by decide : "Control-".toList.map dashToPlus = "Control+".toList)] at h2
            exact h2
          · intro hctl
            subst hctl
            have h1 : occursIn "Control-".toList (accMods false cc true sh alt) := by
              cases cc <;> cases sh <;> cases alt <;> decide
            have h2 := occursIn_map dashToPlus (occursIn_append_left [c.toUpper] h1)
            rw [(by decide : "Control-".toList.map dashToPlus = "Control+".toList)] at h2
            exact h2
          · intro hsh
            subst hsh
            have h1 : occursIn "Shift-".toList (accMods false cc ctl true alt) := by
              cases cc <;> cases ctl <;> cases alt <;> decide
            have h2 := occursIn_map dashToPlus (occursIn_append_left [c.toUpper] h1)
            rw [(by decide : "Shift-".toList.map dashToPlus = "Shift+".toList)] at h2
            exact h2
          · intro halt
            subst halt
            have h1 : occursIn "Alt-".toList (accMods false cc ctl sh true) := by
              cases cc <;> cases ctl <;> cases sh <;> decide
            have h2 := occursIn_map dashToPlus (occursIn_append_left [c.toUpper] h1)
            rw [(by decide : "Alt-".toList.map dashToPlus = "Alt+".toList)] at h2
            exact h2
    · have hb : (cc && ctl) = true := by
        revert hgood
        cases (cc && ctl) <;> simp
      simp only [Bool.and_eq_true] at hb
      obtain ⟨hcc, hctl⟩ := hb
      subst hcc
      subst hctl
      rw [accSeq_err w sh alt letter haq] at hout
      exact Except.noConfusion hout
  · intro haq hout
    cases letter with
    | nil =>
        rw [accSeq_nil w cc ctl sh alt (by rw [haq, Bool.not_true, Bool.and_false])] at hout
        exact Except.noConfusion hout
    | cons c rest =>
        rw [accSeq_ok_aqua w cc ctl sh alt c rest haq] at hout
        injection hout with hout
        subst hout
        refine ⟨?_, ?_, ?_, ?_⟩
        · intro hcc
          subst hcc
          apply occursIn_append_left
          cases ctl <;> cases sh <;> cases alt <;> decide
        · intro hctl
          subst hctl
          apply occursIn_append_left
          cases cc <;> cases sh <;> cases alt <;> decide
        · intro hsh
          subst hsh
          apply occursIn_append_left
          cases cc <;> cases ctl <;> cases alt <;> decide
        · intro halt
          subst halt
          apply occursIn_append_left
          cases cc <;> cases ctl <;> cases sh <;> decide

theorem claim_C7_witness :
    ('-' ∉ "Control+S".toList ∧ occursIn "Control+".toList "Control+S".toList)
  ∧ occursIn "Command-".toList "Command-S".toList :=
  ⟨⟨((claim_C7_separators x11Widget true false false false "s".toList
        "Control+S".toList).1 (by decide) (by decide)).1,
    ((claim_C7_separators x11Widget true false false false "s".toList
        "Control+S".toList).1 (by decide) (by decide)).2.1 rfl⟩,
   ((claim_C7_separators aquaWidget true false false false "s".toList
        "Command-S".toList).2 (by decide) (by decide)).1 rfl⟩

/-- Claim C1 as stated is false: off Aqua with ctrl_cmd and ctrl_ctrl
both set, generate_event_sequence raises nothing and returns the
binding with a single Control modifier. -/
theorem claim_C1_counterexample :
    generate_event_sequence x11Widget true true false false "s".toList
      = .ok "<Control-s>".toList := by
  rfl

/-- Claim C1 amended: only generate_accelerator_sequence raises (a
ValueError) when ctrl_cmd and ctrl_ctrl are combined off Aqua;
generate_event_sequence instead returns the same string as with
ctrl_ctrl unset, deduplicating the Control modifier.  When ctrl_ctrl
is not combined with ctrl_cmd off Aqua, or on Aqua, both functions add
a literal Control modifier to any returned string. -/
theorem claim_C1_amended_thm (w : TkWidget) (cc sh alt : Bool) (letter : List Char) :
    (on_aqua w = false →
      generate_accelerator_sequence w true true sh alt letter
        = .error (.valueError "ctrl_cmd and ctrl_ctrl is True and we are not on Aqua!".toList))
  ∧ (on_aqua w = false →
      generate_event_sequence w true true sh alt letter
        = generate_event_sequence w true false sh alt letter)
  ∧ ((on_aqua w = true ∨ cc = false) →
      (∀ out, generate_event_sequence w cc true sh alt letter = .ok out →
         occursIn "Control-".toList out)
      ∧ (∀ out, generate_accelerator_sequence w cc true sh alt letter = .ok out →
         occursIn "Control".toList out)) := by
  refine ⟨fun haq => accSeq_err w sh alt letter haq, fun haq => ?_, fun hcase => ⟨?_, ?_⟩⟩
  · cases letter with
    | nil => rw [evtSeq_nil, evtSeq_nil]
    | cons c rest =>
        rw [evtSeq_eq, evtSeq_eq, haq]
        rfl
  · intro out hout
    cases letter with
    | nil =>
        rw [evtSeq_nil] at hout
        exact Except.noConfusion hout
    | cons c rest =>
        rw [evtSeq_eq] at hout
        injection hout with hout
        subst hout
        apply occursIn_append_left
        apply occursIn_append_left
        apply occursIn_append_right
        rcases hcase with haq | hcc
        · rw [haq]
          cases cc <;> cases sh <;> cases alt <;> decide
        · subst hcc
          cases haq : on_aqua w <;> cases sh <;> cases alt <;> decide
  · intro out hout
    cases haq : on_aqua w
    · have hcc : cc = false := by
        rcases hcase with h | h
        · rw [haq] at h
          exact absurd h (by decide)
        · exact h
      subst hcc
      cases letter with
      | nil =>
          rw [accSeq_nil w false true sh alt rfl] at hout
          exact Except.noConfusion hout
      | cons c rest =>
          rw [accSeq_ok_nonaqua w false true sh alt c rest haq rfl] at hout
          injection hout with hout
          subst hout
          have h1 : occursIn "Control".toList (accMods false false true sh alt) := by
            cases sh <;> cases alt <;> decide
          have h2 := occursIn_map dashToPlus (occursIn_append_left [c.toUpper] h1)
          rw [(by decide : "Control".toList.map dashToPlus = "Control".toList)] at h2
          exact h2
    · cases letter with
      | nil =>
          rw [accSeq_nil w cc true sh alt (by rw [haq, Bool.not_true, Bool.and_false])] at hout
          exact Except.noConfusion hout
      | cons c rest =>
          rw [accSeq_ok_aqua w cc true sh alt c rest haq] at hout
          injection hout with hout
          subst hout
          apply occursIn_append_left
          cases cc <;> cases sh <;> cases alt <;> decide

theorem claim_C1_witness :
    generate_accelerator_sequence x11Widget true true false false "s".toList
      = .error (.valueError "ctrl_cmd and ctrl_ctrl is True and we are not on Aqua!".toList)
  ∧ occursIn "Control-".toList "<Command-Control-s>".toList :=
  ⟨(claim_C1_amended_thm x11Widget true false false "s".toList).1 (by decide),
   ((claim_C1_amended_thm aquaWidget true false false "s".toList).2.2
      (Or.inl (by decide))).1 "<Command-Control-s>".toList (by decide)⟩
